import Mathlib

/-
Verification of the external-service resilience layer of the ai-finance-tracker
backend (src/backend/main.py, src/backend/ocr_utils.py, src/backend/test_ocr_logic.py)
against its natural-language specification.

The Python source is shallowly embedded: network responses and exceptions are
modelled as explicit sum types, the async generator loops become pure functions
producing traces of actions, and Python floats are modelled as rationals.
-/

set_option maxRecDepth 10000

/-! ## Part 1: the failover orchestrator (main.py)

The streaming generators `create_ai_progress_generator` (main.py:1385-1450),
`create_savings_ai_progress_generator` (main.py:1546-1604) and
`create_ai_chat_progress_generator` (main.py:2029-2068) share one loop shape,
embedded below as `streamRun`.  The collect-mode loop of `generate_ai_summary`
(main.py:1811-1868) is embedded as `summaryLoop`. -/

/-- The body of one HTTP response from a provider, as the Python code inspects
it: `status` is `response.status_code`; `jsonOk` tells whether `response.json()`
parses (when it does not, the raised error carries message `jsonErrMsg`);
`choices` is the list of `choices[i].message.content` strings (empty when the
key is absent or the list is empty, which the code treats identically);
`errorMessage` is `error.message` of the parsed error body when present;
`text` is `response.text`. -/
structure HttpResp where
  status : Nat
  jsonOk : Bool
  jsonErrMsg : String
  choices : List String
  errorMessage : Option String
  text : String
deriving Repr, DecidableEq

/-- Result of one provider invocation `await client.post(...)`: a response,
an `httpx.TimeoutException` (with its string form), or another exception. -/
inductive CallResult where
  | resp (r : HttpResp)
  | timeout (msg : String)
  | exc (msg : String)
deriving Repr, DecidableEq

/-- main.py:1422-1427 - `error_json.get('error', \x7b\x7d).get('message', response.text)`
with fallback to `response.text` when the body does not parse as JSON. -/
def errDetail (r : HttpResp) : String :=
  if r.jsonOk then r.errorMessage.getD r.text else r.text

/-- The closed set of attempt outcomes the loops distinguish. -/
inductive Outcome where
  | success (payload : String)
  | emptyResponse
  | rateLimited
  | timedOut
  | transportError (detail : String)
deriving Repr, DecidableEq

/-- The attempt classifier, read off the branch structure shared by the
streaming loops (main.py:1410-1447): status 200 with parseable JSON and a
non-empty `choices` is a success; 200 with an empty/absent `choices` is an
empty response; 200 whose body fails to parse raises inside the `try` and is
caught by the generic handler; status 429 is rate-limited; any other status
is an error carrying the extracted detail; `httpx.TimeoutException` is a
timeout; any other exception is an error with its message. -/
def classify : CallResult → Outcome
  | .timeout _ => .timedOut
  | .exc m => .transportError m
  | .resp r =>
    if r.status = 200 then
      if r.jsonOk then
        match r.choices with
        | c :: _ => .success c
        | [] => .emptyResponse
      else .transportError r.jsonErrMsg
    else if r.status = 429 then .rateLimited
    else .transportError (errDetail r)

def isSuccess : Outcome → Bool
  | .success _ => true
  | _ => false

/-- Reason codes carried by a `model_failed` SSE event (main.py:1419-1446). -/
inductive FailReason where
  | rateLimited
  | timeout
  | emptyResponse
  | error (detail : String)
deriving Repr, DecidableEq

/-- The discrete SSE events of the progress channel (main.py:1387-1450). -/
inductive Event where
  | trying (model : String)
  | modelFailed (model : String) (reason : FailReason)
  | success (model : String) (summary : String)
  | fatal (message : String)
deriving Repr, DecidableEq

/-- One observable step of an orchestration run: emitting an SSE event,
starting the HTTP call to a provider, or an `asyncio.sleep` pause
(milliseconds). -/
inductive Act where
  | ev (e : Event)
  | callp (model : String)
  | pause (ms : Nat)
deriving Repr, DecidableEq

/-- Terminal error message of the streaming loops (main.py:1450, 1604, 2068). -/
def allBusyMsg : String :=
  "All AI models are currently busy. Please try again in a minute."

/-- The streaming failover loop (main.py:1385-1450): for each model, yield a
`trying_model` event, call the provider, classify; on success yield the
`success` event and stop; on rate-limit yield `model_failed` and sleep 0.5 s;
on other failures yield `model_failed` and advance; after exhausting the
roster yield the terminal `error` event. -/
def streamRun (call : String → CallResult) : List String → List Act
  | [] => [.ev (.fatal allBusyMsg)]
  | m :: rest =>
    .ev (.trying m) :: .callp m ::
    (match classify (call m) with
     | .success p => [.ev (.success m p)]
     | .emptyResponse => .ev (.modelFailed m .emptyResponse) :: streamRun call rest
     | .rateLimited => .ev (.modelFailed m .rateLimited) :: .pause 500 :: streamRun call rest
     | .timedOut => .ev (.modelFailed m .timeout) :: streamRun call rest
     | .transportError d => .ev (.modelFailed m (.error d)) :: streamRun call rest)

/-- The final payload of a streaming run: the first provider whose call
classifies as a success, with its payload (the loop returns right after the
`success` event). -/
def streamResult (call : String → CallResult) : List String → Option (String × String)
  | [] => none
  | m :: rest =>
    match classify (call m) with
    | .success p => some (m, p)
    | _ => streamResult call rest

/-- Python `errors[-3:]`. -/
def lastThree (l : List String) : List String := l.drop (l.length - 3)

/-- The exhaustion detail of `generate_ai_summary` (main.py:1864-1868):
`"All AI models are busy. Last issues: "` followed by the last three recorded
error entries joined by `" | "`, or `"No models responded"` if none. -/
def exhaustDetail (errors : List String) : String :=
  "All AI models are busy. Last issues: " ++
    (if errors = [] then "No models responded"
     else String.intercalate " | " (lastThree errors))

/-- Result of the collect-mode loop: a summary from one model, or an
`HTTPException(status_code=503, detail=...)`. -/
inductive CollectResult where
  | completed (model summary : String)
  | exhausted (status : Nat) (detail : String)
deriving Repr, DecidableEq

/-- The collect-mode failover loop of `generate_ai_summary`
(main.py:1811-1868), with its `errors` accumulator.  Returns the action trace
(provider calls; this loop never pauses), the final `errors` list, and the
result.  Error entry formats follow the source: `f"model: Empty response"`
for a 200 with no choices, `f"model (status): detail"` for a non-200 status,
and `f"model: message"` for any exception (timeouts are not distinguished
here, unlike the streaming loop). -/
def summaryLoop (call : String → CallResult) :
    List String → List String → List Act × List String × CollectResult
  | errors, [] => ([], errors, .exhausted 503 (exhaustDetail errors))
  | errors, m :: rest =>
    match call m with
    | .resp r =>
      if r.status = 200 then
        if r.jsonOk then
          match r.choices with
          | c :: _ => ([.callp m], errors, .completed m c)
          | [] =>
            let t := summaryLoop call (errors ++ [m ++ ": Empty response"]) rest
            (.callp m :: t.1, t.2)
        else
          let t := summaryLoop call (errors ++ [m ++ ": " ++ r.jsonErrMsg]) rest
          (.callp m :: t.1, t.2)
      else
        let t := summaryLoop call
          (errors ++ [m ++ " (" ++ toString r.status ++ "): " ++ errDetail r]) rest
        (.callp m :: t.1, t.2)
    | .timeout msg =>
      let t := summaryLoop call (errors ++ [m ++ ": " ++ msg]) rest
      (.callp m :: t.1, t.2)
    | .exc msg =>
      let t := summaryLoop call (errors ++ [m ++ ": " ++ msg]) rest
      (.callp m :: t.1, t.2)

/-- Checks that attempts and `trying_model` events pair up exactly: every
`trying` event is immediately followed by the call it announces, and no call
starts without its announcing event. -/
def wellFormedAttempts : List Act → Bool
  | [] => true
  | .ev (.trying m) :: .callp m' :: rest => m = m' && wellFormedAttempts rest
  | .ev (.trying _) :: _ => false
  | .callp _ :: _ => false
  | _ :: rest => wellFormedAttempts rest

def successEvCount (l : List Act) : Nat :=
  l.countP (fun a => match a with | .ev (.success _ _) => true | _ => false)

def failedEvCount (l : List Act) : Nat :=
  l.countP (fun a => match a with | .ev (.modelFailed _ _) => true | _ => false)

def endsWithSuccessEv (l : List Act) : Bool :=
  match l.getLast? with
  | some (.ev (.success _ _)) => true
  | _ => false

def endsWithFatal (l : List Act) (msg : String) : Bool :=
  match l.getLast? with
  | some (.ev (.fatal m)) => m = msg
  | _ => false

/-- Pause policy of a trace: every rate-limited failure is immediately
followed by a strictly positive pause, and pauses occur nowhere else. -/
def pausePolicy : List Act → Bool
  | [] => true
  | .ev (.modelFailed _ .rateLimited) :: .pause n :: rest =>
    decide (0 < n) && pausePolicy rest
  | .ev (.modelFailed _ .rateLimited) :: _ => false
  | .pause _ :: _ => false
  | _ :: rest => pausePolicy rest

def noPause (l : List Act) : Bool :=
  l.all (fun a => match a with | .pause _ => false | _ => true)

/-- Does the second character list occur as a leading segment of the first? -/
def startsList : List Char → List Char → Bool
  | _, [] => true
  | [], _ :: _ => false
  | h :: hs, n :: ns => h = n && startsList hs ns

/-- Does the second character list occur anywhere inside the first? -/
def occursList : List Char → List Char → Bool
  | [], n => n.isEmpty
  | h :: hs, n => startsList (h :: hs) n || occursList hs n

/-- Python-style substring test (`needle in hay`). -/
def containsStr (hay needle : String) : Bool := occursList hay.toList needle.toList

/-! ### General lemmas about the two loops -/

theorem streamRun_ne_nil (call : String → CallResult) (roster : List String) :
    streamRun call roster ≠ [] := by
  cases roster with
  | nil => simp [streamRun]
  | cons m rest => cases h : classify (call m) <;> simp [streamRun, h]

theorem getLast?_cons_ne (a : Act) (l : List Act) (h : l ≠ []) :
    (a :: l).getLast? = l.getLast? := by
  cases l with
  | nil => exact absurd rfl h
  | cons b t => simp [List.getLast?]

theorem endsWithSuccessEv_cons (a : Act) (l : List Act) (h : l ≠ []) :
    endsWithSuccessEv (a :: l) = endsWithSuccessEv l := by
  unfold endsWithSuccessEv
  rw [getLast?_cons_ne a l h]

theorem endsWithFatal_cons (a : Act) (l : List Act) (msg : String) (h : l ≠ []) :
    endsWithFatal (a :: l) msg = endsWithFatal l msg := by
  unfold endsWithFatal
  rw [getLast?_cons_ne a l h]

/-- Every streaming trace pairs one `trying_model` event with each attempt. -/
theorem wellFormed_streamRun (call : String → CallResult) (roster : List String) :
    wellFormedAttempts (streamRun call roster) = true := by
  induction roster with
  | nil => simp [streamRun, wellFormedAttempts]
  | cons m rest ih =>
    cases h : classify (call m) <;>
      simp [streamRun, h, wellFormedAttempts, ih]

/-- Every streaming trace obeys the pause policy: a pause of 0.5 s exactly
after each rate-limited failure, nowhere else. -/
theorem pausePolicy_streamRun (call : String → CallResult) (roster : List String) :
    pausePolicy (streamRun call roster) = true := by
  induction roster with
  | nil => simp [streamRun, pausePolicy]
  | cons m rest ih =>
    cases h : classify (call m) <;>
      simp [streamRun, h, pausePolicy, ih]

/-- The collect-mode loop of `generate_ai_summary` never pauses. -/
theorem noPause_summaryLoop (call : String → CallResult) (roster : List String) :
    ∀ errors, noPause (summaryLoop call errors roster).1 = true := by
  induction roster with
  | nil => intro errors; simp [summaryLoop, noPause]
  | cons m rest ih =>
    intro errors
    cases hc : call m with
    | resp r =>
      by_cases h200 : r.status = 200
      · by_cases hj : r.jsonOk
        · cases hch : r.choices with
          | nil =>
            have h2 := ih (errors ++ [m ++ ": Empty response"])
            simp [summaryLoop, hc, h200, hj, hch, noPause] at h2 ⊢
            exact h2
          | cons c cs => simp [summaryLoop, hc, h200, hj, hch, noPause]
        · have h2 := ih (errors ++ [m ++ ": " ++ r.jsonErrMsg])
          simp [summaryLoop, hc, h200, hj, noPause] at h2 ⊢
          exact h2
      · have h2 := ih (errors ++ [m ++ " (" ++ toString r.status ++ "): " ++ errDetail r])
        simp [summaryLoop, hc, h200, noPause] at h2 ⊢
        exact h2
    | timeout msg =>
      have h2 := ih (errors ++ [m ++ ": " ++ msg])
      simp [summaryLoop, hc, noPause] at h2 ⊢
      exact h2
    | exc msg =>
      have h2 := ih (errors ++ [m ++ ": " ++ msg])
      simp [summaryLoop, hc, noPause] at h2 ⊢
      exact h2

/-- Exhaustion behaviour of the streaming loop when every roster entry fails. -/
theorem streamRun_exhaust (call : String → CallResult) (roster : List String)
    (hall : ∀ m ∈ roster, isSuccess (classify (call m)) = false) :
    streamResult call roster = none ∧
    successEvCount (streamRun call roster) = 0 ∧
    failedEvCount (streamRun call roster) = roster.length ∧
    endsWithFatal (streamRun call roster) allBusyMsg = true := by
  induction roster with
  | nil =>
    refine ⟨rfl, rfl, rfl, ?_⟩
    simp [streamRun, endsWithFatal, List.getLast?]
  | cons m rest ih =>
    have hm : isSuccess (classify (call m)) = false := hall m (List.mem_cons_self m rest)
    have hrest : ∀ m' ∈ rest, isSuccess (classify (call m')) = false :=
      fun m' hm' => hall m' (List.mem_cons_of_mem m hm')
    obtain ⟨ihres, ihcnt, ihfail, ihend⟩ := ih hrest
    cases h : classify (call m) with
    | success p => rw [h] at hm; simp [isSuccess] at hm
    | emptyResponse =>
      refine ⟨?_, ?_, ?_, ?_⟩
      · simp [streamResult, h, ihres]
      · simp [streamRun, h, successEvCount, List.countP_cons] at ihcnt ⊢
        exact ihcnt
      · simp [streamRun, h, failedEvCount, List.countP_cons] at ihfail ⊢
        omega
      · simp only [streamRun, h]
        rw [endsWithFatal_cons, endsWithFatal_cons, endsWithFatal_cons]
        · exact ihend
        all_goals first
          | exact streamRun_ne_nil call rest
          | simp [streamRun_ne_nil]
    | rateLimited =>
      refine ⟨?_, ?_, ?_, ?_⟩
      · simp [streamResult, h, ihres]
      · simp [streamRun, h, successEvCount, List.countP_cons] at ihcnt ⊢
        exact ihcnt
      · simp [streamRun, h, failedEvCount, List.countP_cons] at ihfail ⊢
        omega
      · simp only [streamRun, h]
        rw [endsWithFatal_cons, endsWithFatal_cons, endsWithFatal_cons, endsWithFatal_cons]
        · exact ihend
        all_goals first
          | exact streamRun_ne_nil call rest
          | simp [streamRun_ne_nil]
    | timedOut =>
      refine ⟨?_, ?_, ?_, ?_⟩
      · simp [streamResult, h, ihres]
      · simp [streamRun, h, successEvCount, List.countP_cons] at ihcnt ⊢
        exact ihcnt
      · simp [streamRun, h, failedEvCount, List.countP_cons] at ihfail ⊢
        omega
      · simp only [streamRun, h]
        rw [endsWithFatal_cons, endsWithFatal_cons, endsWithFatal_cons]
        · exact ihend
        all_goals first
          | exact streamRun_ne_nil call rest
          | simp [streamRun_ne_nil]
    | transportError d =>
      refine ⟨?_, ?_, ?_, ?_⟩
      · simp [streamResult, h, ihres]
      · simp [streamRun, h, successEvCount, List.countP_cons] at ihcnt ⊢
        exact ihcnt
      · simp [streamRun, h, failedEvCount, List.countP_cons] at ihfail ⊢
        omega
      · simp only [streamRun, h]
        rw [endsWithFatal_cons, endsWithFatal_cons, endsWithFatal_cons]
        · exact ihend
        all_goals first
          | exact streamRun_ne_nil call rest
          | simp [streamRun_ne_nil]

/-- Success behaviour of the streaming loop: the run completes with the first
provider in roster order whose call classifies as a success, and the trace
ends in exactly one `success` event. -/
theorem streamRun_success (call : String → CallResult) (roster : List String)
    (hex : ∃ m ∈ roster, isSuccess (classify (call m)) = true) :
    (∃ m p, roster.find? (fun x => isSuccess (classify (call x))) = some m ∧
      classify (call m) = .success p ∧
      streamResult call roster = some (m, p)) ∧
    successEvCount (streamRun call roster) = 1 ∧
    endsWithSuccessEv (streamRun call roster) = true := by
  induction roster with
  | nil => simp at hex
  | cons m rest ih =>
    by_cases hs : isSuccess (classify (call m)) = true
    · obtain ⟨p, hp⟩ : ∃ p, classify (call m) = .success p := by
        cases h : classify (call m) <;> rw [h] at hs <;> simp [isSuccess] at hs ⊢
      refine ⟨⟨m, p, ?_, hp, ?_⟩, ?_, ?_⟩
      · simp [List.find?_cons, hs]
      · simp [streamResult, hp]
      · simp [streamRun, hp, successEvCount, List.countP_cons]
      · simp [streamRun, hp, endsWithSuccessEv, List.getLast?]
    · have hs' : isSuccess (classify (call m)) = false := by simpa using hs
      have hex' : ∃ m' ∈ rest, isSuccess (classify (call m')) = true := by
        rcases hex with ⟨m', hm', hsucc⟩
        rcases List.mem_cons.mp hm' with rfl | hmem
        · exact absurd hsucc hs
        · exact ⟨m', hmem, hsucc⟩
      obtain ⟨⟨m₀, p₀, hfind, hcl, hres⟩, hcnt, hend⟩ := ih hex'
      refine ⟨⟨m₀, p₀, ?_, hcl, ?_⟩, ?_, ?_⟩
      · simp [List.find?_cons, hs', hfind]
      · cases h : classify (call m) <;> rw [h] at hs' <;>
          simp [isSuccess] at hs' <;> simp [streamResult, h, hres]
      · cases h : classify (call m) with
        | success p => rw [h] at hs'; simp [isSuccess] at hs'
        | emptyResponse =>
          simp [streamRun, h, successEvCount, List.countP_cons] at hcnt ⊢
          exact hcnt
        | rateLimited =>
          simp [streamRun, h, successEvCount, List.countP_cons] at hcnt ⊢
          exact hcnt
        | timedOut =>
          simp [streamRun, h, successEvCount, List.countP_cons] at hcnt ⊢
          exact hcnt
        | transportError d =>
          simp [streamRun, h, successEvCount, List.countP_cons] at hcnt ⊢
          exact hcnt
      · cases h : classify (call m) with
        | success p => rw [h] at hs'; simp [isSuccess] at hs'
        | emptyResponse =>
          simp only [streamRun, h]
          rw [endsWithSuccessEv_cons, endsWithSuccessEv_cons, endsWithSuccessEv_cons]
          · exact hend
          all_goals first
            | exact streamRun_ne_nil call rest
            | simp [streamRun_ne_nil]
        | rateLimited =>
          simp only [streamRun, h]
          rw [endsWithSuccessEv_cons, endsWithSuccessEv_cons, endsWithSuccessEv_cons,
            endsWithSuccessEv_cons]
          · exact hend
          all_goals first
            | exact streamRun_ne_nil call rest
            | simp [streamRun_ne_nil]
        | timedOut =>
          simp only [streamRun, h]
          rw [endsWithSuccessEv_cons, endsWithSuccessEv_cons, endsWithSuccessEv_cons]
          · exact hend
          all_goals first
            | exact streamRun_ne_nil call rest
            | simp [streamRun_ne_nil]
        | transportError d =>
          simp only [streamRun, h]
          rw [endsWithSuccessEv_cons, endsWithSuccessEv_cons, endsWithSuccessEv_cons]
          · exact hend
          all_goals first
            | exact streamRun_ne_nil call rest
            | simp [streamRun_ne_nil]

/-- Exhaustion behaviour of the collect-mode loop: when every roster entry
fails, the result is a 503 built from the final error list, which grows by
exactly one entry per roster entry. -/
theorem summaryLoop_exhaust (call : String → CallResult) (roster : List String)
    (hall : ∀ m ∈ roster, isSuccess (classify (call m)) = false) :
    ∀ errors,
      (summaryLoop call errors roster).2.2 =
        .exhausted 503 (exhaustDetail (summaryLoop call errors roster).2.1) ∧
      (summaryLoop call errors roster).2.1.length = errors.length + roster.length := by
  induction roster with
  | nil => intro errors; simp [summaryLoop]
  | cons m rest ih =>
    intro errors
    have hm : isSuccess (classify (call m)) = false := hall m (List.mem_cons_self m rest)
    have hrest : ∀ m' ∈ rest, isSuccess (classify (call m')) = false :=
      fun m' hm' => hall m' (List.mem_cons_of_mem m hm')
    cases hc : call m with
    | resp r =>
      by_cases h200 : r.status = 200
      · by_cases hj : r.jsonOk
        · cases hch : r.choices with
          | nil =>
            have h2 := ih hrest (errors ++ [m ++ ": Empty response"])
            simp [summaryLoop, hc, h200, hj, hch] at h2 ⊢
            refine ⟨h2.1, by omega⟩
          | cons c cs =>
            exfalso
            rw [hc] at hm
            simp [classify, h200, hj, hch, isSuccess] at hm
        · have h2 := ih hrest (errors ++ [m ++ ": " ++ r.jsonErrMsg])
          simp [summaryLoop, hc, h200, hj] at h2 ⊢
          refine ⟨h2.1, by omega⟩
      · have h2 := ih hrest (errors ++ [m ++ " (" ++ toString r.status ++ "): " ++ errDetail r])
        simp [summaryLoop, hc, h200] at h2 ⊢
        refine ⟨h2.1, by omega⟩
    | timeout msg =>
      have h2 := ih hrest (errors ++ [m ++ ": " ++ msg])
      simp [summaryLoop, hc] at h2 ⊢
      refine ⟨h2.1, by omega⟩
    | exc msg =>
      have h2 := ih hrest (errors ++ [m ++ ": " ++ msg])
      simp [summaryLoop, hc] at h2 ⊢
      refine ⟨h2.1, by omega⟩

/-! ### Concrete runs used as witnesses and counterexamples -/

/-- Scenario of spec section 8: model A is rate-limited, B times out, C
succeeds with payload "ok". -/
def exCall : String → CallResult := fun m =>
  if m = "A" then .resp ⟨429, true, "", [], some "rate limit exceeded", "rl-body"⟩
  else if m = "B" then .timeout "ReadTimeout"
  else .resp ⟨200, true, "", ["ok"], none, ""⟩

/-- A roster on which every provider fails: m1 gets a 500 with an upstream
error body, everything else raises a transport exception. -/
def exFailCall : String → CallResult := fun m =>
  if m = "m1" then .resp ⟨500, true, "", [], some "upstream boom", "raw body"⟩
  else .exc "connection refused"

/-- Model A is rate-limited (HTTP 429), everything else gets a 500. -/
def rlCall : String → CallResult := fun m =>
  if m = "A" then .resp ⟨429, true, "", [], some "rate limited", "rl-body"⟩
  else .resp ⟨500, true, "", [], some "server error", "err-body"⟩

/-- The full spec section 8 end-to-end trace, for reference. -/
theorem streamRun_example :
    streamRun exCall ["A", "B", "C"] =
      [.ev (.trying "A"), .callp "A", .ev (.modelFailed "A" .rateLimited), .pause 500,
       .ev (.trying "B"), .callp "B", .ev (.modelFailed "B" .timeout),
       .ev (.trying "C"), .callp "C", .ev (.success "C" "ok")] := by
  decide

/-! ### Claim C1 -/

/-- C1: for every non-empty roster in which at least one provider call
classifies as a success, the streaming failover loop completes with the first
succeeding provider and its payload, the trace pairs exactly one
`trying_model` event immediately before each attempt, and it terminates with
exactly one `success` event. -/
theorem c1_first_success_and_events (call : String → CallResult)
    (roster : List String) (_hne : roster ≠ [])
    (hex : ∃ m ∈ roster, isSuccess (classify (call m)) = true) :
    (∃ m p, roster.find? (fun x => isSuccess (classify (call x))) = some m ∧
      classify (call m) = .success p ∧
      streamResult call roster = some (m, p)) ∧
    wellFormedAttempts (streamRun call roster) = true ∧
    successEvCount (streamRun call roster) = 1 ∧
    endsWithSuccessEv (streamRun call roster) = true := by
  obtain ⟨h1, h2, h3⟩ := streamRun_success call roster hex
  exact ⟨h1, wellFormed_streamRun call roster, h2, h3⟩

/-- C1 witness: the spec section 8 roster, with C the succeeding provider. -/
theorem c1_witness :
    ((["A", "B", "C"] : List String) ≠ [] ∧
      (∃ m ∈ (["A", "B", "C"] : List String), isSuccess (classify (exCall m)) = true)) ∧
    ((∃ m p, (["A", "B", "C"] : List String).find?
          (fun x => isSuccess (classify (exCall x))) = some m ∧
        classify (exCall m) = .success p ∧
        streamResult exCall ["A", "B", "C"] = some (m, p)) ∧
      wellFormedAttempts (streamRun exCall ["A", "B", "C"]) = true ∧
      successEvCount (streamRun exCall ["A", "B", "C"]) = 1 ∧
      endsWithSuccessEv (streamRun exCall ["A", "B", "C"]) = true) :=
  ⟨⟨by decide, ⟨"C", by decide, by decide⟩⟩,
    c1_first_success_and_events exCall ["A", "B", "C"] (by decide)
      ⟨"C", by decide, by decide⟩⟩

/-! ### Claim C2 -/

/-- C2: when every provider call classifies as a non-success outcome, the
streaming loop yields no success event, emits one `model_failed` event per
roster entry, and terminates with the exhaustion error; the collect-mode loop
of `generate_ai_summary` raises a 503 whose error history has exactly one
entry per roster entry. -/
theorem c2_exhaustion (call : String → CallResult) (roster : List String)
    (hall : ∀ m ∈ roster, isSuccess (classify (call m)) = false) :
    streamResult call roster = none ∧
    successEvCount (streamRun call roster) = 0 ∧
    failedEvCount (streamRun call roster) = roster.length ∧
    endsWithFatal (streamRun call roster) allBusyMsg = true ∧
    (summaryLoop call [] roster).2.2 =
      .exhausted 503 (exhaustDetail (summaryLoop call [] roster).2.1) ∧
    (summaryLoop call [] roster).2.1.length = roster.length := by
  obtain ⟨a, b, c, d⟩ := streamRun_exhaust call roster hall
  obtain ⟨e, f⟩ := summaryLoop_exhaust call roster hall []
  exact ⟨a, b, c, d, e, by simpa using f⟩

/-- C2 witness: a two-provider roster where both providers fail. -/
theorem c2_witness :
    (∀ m ∈ (["m1", "m2"] : List String), isSuccess (classify (exFailCall m)) = false) ∧
    (streamResult exFailCall ["m1", "m2"] = none ∧
      successEvCount (streamRun exFailCall ["m1", "m2"]) = 0 ∧
      failedEvCount (streamRun exFailCall ["m1", "m2"]) =
        (["m1", "m2"] : List String).length ∧
      endsWithFatal (streamRun exFailCall ["m1", "m2"]) allBusyMsg = true ∧
      (summaryLoop exFailCall [] ["m1", "m2"]).2.2 =
        .exhausted 503 (exhaustDetail (summaryLoop exFailCall [] ["m1", "m2"]).2.1) ∧
      (summaryLoop exFailCall [] ["m1", "m2"]).2.1.length =
        (["m1", "m2"] : List String).length) :=
  ⟨by decide, c2_exhaustion exFailCall ["m1", "m2"] (by decide)⟩

/-! ### Claim C8 -/

/-- C8 counterexample: in the collect-mode loop of `generate_ai_summary`,
model A is rate-limited and the next attempt (model B) begins with no pause
at all in between, refuting the claim that every orchestration run pauses
after a rate-limited outcome. -/
theorem c8_counterexample :
    classify (rlCall "A") = .rateLimited ∧
    (summaryLoop rlCall [] ["A", "B"]).1 = [.callp "A", .callp "B"] ∧
    noPause (summaryLoop rlCall [] ["A", "B"]).1 = true := by
  decide

/-- C8 as amended: in the streaming loops, every rate-limited failure is
followed immediately by a strictly positive pause (0.5 s) and no pause
follows any other outcome; the collect-mode loop of `generate_ai_summary`
never pauses after any outcome, rate-limited included. -/
theorem c8_pause_policy (call : String → CallResult) (roster : List String)
    (errors : List String) :
    pausePolicy (streamRun call roster) = true ∧
    noPause (summaryLoop call errors roster).1 = true :=
  ⟨pausePolicy_streamRun call roster, noPause_summaryLoop call roster errors⟩

/-! ### Claim C9 -/

/-- C9 counterexample: the 503 detail of `generate_ai_summary` on exhaustion
contains the provider identity m1 and the raw upstream error text, refuting
the claim that exhaustion messages never expose either. -/
theorem c9_counterexample :
    (summaryLoop exFailCall [] ["m1"]).2.2 =
      .exhausted 503 "All AI models are busy. Last issues: m1 (500): upstream boom" ∧
    containsStr "All AI models are busy. Last issues: m1 (500): upstream boom" "m1"
      = true ∧
    containsStr "All AI models are busy. Last issues: m1 (500): upstream boom"
      "upstream boom" = true := by
  decide

/-- C9 as amended: the streaming endpoints do satisfy the claim - their
terminal exhaustion event always carries the fixed message `allBusyMsg`,
which names no provider and quotes no upstream error; only the collect-mode
summary endpoint leaks attempt details in its 503. -/
theorem c9_stream_exhaust_message (call : String → CallResult)
    (roster : List String)
    (hall : ∀ m ∈ roster, isSuccess (classify (call m)) = false) :
    endsWithFatal (streamRun call roster) allBusyMsg = true :=
  (streamRun_exhaust call roster hall).2.2.2

/-- C9 witness: the amended statement at a concrete all-fail roster. -/
theorem c9_witness :
    (∀ m ∈ (["m1"] : List String), isSuccess (classify (exFailCall m)) = false) ∧
    endsWithFatal (streamRun exFailCall ["m1"]) allBusyMsg = true :=
  ⟨by decide, c9_stream_exhaust_message exFailCall ["m1"] (by decide)⟩

/-! ## Part 2: OCR amount extraction (ocr_utils.py, test_ocr_logic.py)

`extract_amount_from_text` is regex-driven, so the embedding carries a small
backtracking engine for the subset of Python `re` the amount patterns use:
literals, character classes, `\d`, `\s`, `\b`, alternation (leftmost
priority), greedy `*` `+` `?` and bounded repetition, and one capturing
group per pattern.  `re.findall` is modelled with its leftmost,
non-overlapping scan.  The texts are lowercased first by the source, so the
IGNORECASE flag is immaterial. -/

inductive RE where
  | eps
  | ch (c : Char)
  | cls (cs : List Char)
  | digit
  | wsp
  | wb
  | seq (a b : RE)
  | alt (a b : RE)
  | star (a : RE)
  | opt (a : RE)
  | grp (a : RE)
deriving Repr

/-- Python `\w` over the ASCII texts at hand. -/
def isWordChar (c : Char) : Bool := c.isAlphanum || c = '_'

/-- Python `\s`. -/
def pySpaceChars : List Char := [' ', '\t', '\n', '\r', '\x0b', '\x0c']

/-- Python `\b` at position `i` of `s`. -/
def wordBoundaryAt (s : List Char) (i : Nat) : Bool :=
  let before :=
    if i = 0 then false
    else match s.get? (i - 1) with
      | some c => isWordChar c
      | none => false
  let after :=
    match s.get? i with
    | some c => isWordChar c
    | none => false
  before != after

/-- First capture wins (each pattern below has exactly one group). -/
def pickCap : Option (Nat × Nat) → Option (Nat × Nat) → Option (Nat × Nat)
  | some c, _ => some c
  | none, c => c

/-- All ways to match `re` at position `i` of `s`, as pairs of end position
and group capture, in Python backtracking priority order (leftmost
alternative first, greedy repetition longest first; a `*` iteration must
consume input, as in Python).  `fuel` bounds the recursion depth and is
chosen amply by the callers; group captures inside a repetition are not
tracked (no pattern below has one). -/
def runs (s : List Char) : Nat → RE → Nat → List (Nat × Option (Nat × Nat))
  | 0, _, _ => []
  | _ + 1, .eps, i => [(i, none)]
  | _ + 1, .ch c, i =>
    match s.get? i with
    | some c2 => if c2 = c then [(i + 1, none)] else []
    | none => []
  | _ + 1, .cls cs, i =>
    match s.get? i with
    | some c2 => if cs.contains c2 then [(i + 1, none)] else []
    | none => []
  | _ + 1, .digit, i =>
    match s.get? i with
    | some c2 => if c2.isDigit then [(i + 1, none)] else []
    | none => []
  | _ + 1, .wsp, i =>
    match s.get? i with
    | some c2 => if pySpaceChars.contains c2 then [(i + 1, none)] else []
    | none => []
  | _ + 1, .wb, i => if wordBoundaryAt s i then [(i, none)] else []
  | fuel + 1, .seq a b, i =>
    (runs s fuel a i).flatMap fun jc =>
      (runs s fuel b jc.1).map fun kc => (kc.1, pickCap jc.2 kc.2)
  | fuel + 1, .alt a b, i => runs s fuel a i ++ runs s fuel b i
  | fuel + 1, .opt a, i => runs s fuel a i ++ [(i, none)]
  | fuel + 1, .grp a, i => (runs s fuel a i).map fun jc => (jc.1, some (i, jc.1))
  | fuel + 1, .star a, i =>
    ((runs s fuel a i).filter fun jc => jc.1 ≠ i).flatMap
      (fun jc => runs s fuel (.star a) jc.1) ++ [(i, none)]

def captureOf (s : List Char) : Option (Nat × Nat) → String
  | some (a, b) => String.mk ((s.drop a).take (b - a))
  | none => ""

/-- Ample `runs` fuel for a text of `n` characters and the patterns below. -/
def reFuel (n : Nat) : Nat := 200 * (n + 2)

/-- The scan of `re.findall`: try each start position left to right, take the
first (highest-priority) match, record its group, resume after the match. -/
def findallAux (s : List Char) (r : RE) : Nat → Nat → List String
  | _, 0 => []
  | i, fuel + 1 =>
    match runs s (reFuel s.length) r i with
    | [] => if i < s.length then findallAux s r (i + 1) fuel else []
    | jc :: _ =>
      captureOf s jc.2 ::
        (if jc.1 ≤ i then
          (if i < s.length then findallAux s r (i + 1) fuel else [])
         else findallAux s r jc.1 fuel)

/-- Python `re.findall(pattern, s)` for a single-group pattern: the list of
captured group strings. -/
def pyFindall (r : RE) (s : String) : List String :=
  findallAux s.toList r 0 (s.toList.length + 1)

/-- ASCII lowercase of one character; Python `str.lower()` only changes
letters in the texts at hand. -/
def pyLowerChar (c : Char) : Char :=
  if 65 ≤ c.toNat ∧ c.toNat ≤ 90 then Char.ofNat (c.toNat + 32) else c

/-- Python `str.lower()`. -/
def pyLower (s : String) : String := String.mk (s.toList.map pyLowerChar)

def digitsToNat (l : List Char) : Nat := l.foldl (fun a c => a * 10 + (c.toNat - 48)) 0

/-- An exact decimal, the value being `num` scaled down by `10 ^ exp`.  The
Python floats flowing through the amount extractors are always parsed from
short decimal literals and are only compared, never added, so this exact
representation is faithful and keeps every definition kernel-evaluable. -/
structure PyNum where
  num : Int
  exp : Nat
deriving Repr, DecidableEq

/-- The rational value of a `PyNum`. -/
def decToRat (d : PyNum) : ℚ := (d.num : ℚ) / (10 : ℚ) ^ d.exp

/-- Value comparison of exact decimals (cross-multiplied). -/
def decLt (a b : PyNum) : Bool := a.num * (10 : Int) ^ b.exp < b.num * (10 : Int) ^ a.exp

/-- Split a character list on dots. -/
def splitDot : List Char → List (List Char)
  | [] => [[]]
  | c :: rest =>
    if c = '.' then [] :: splitDot rest
    else
      match splitDot rest with
      | h :: t => (c :: h) :: t
      | [] => [[c]]

/-- Python `float(s)` on the unsigned decimal literals the callers produce:
digits with at most one dot parse to an exact decimal, anything else raises
(modelled as `none`). -/
def pyFloat (s : String) : Option PyNum :=
  let cs := s.toList
  if cs.isEmpty then none
  else if cs.all (fun c => c.isDigit || c = '.') then
    match splitDot cs with
    | [ip] => if ip.isEmpty then none else some ⟨digitsToNat ip, 0⟩
    | [ip, fp] =>
      if ip.isEmpty && fp.isEmpty then none
      else some ⟨digitsToNat ip * (10 : Int) ^ fp.length + digitsToNat fp, fp.length⟩
    | _ => none
  else none

/-- Python `max` over a non-empty list (head plus tail); among equals the
first encountered wins, as in Python. -/
def maxListQ (a : PyNum) (l : List PyNum) : PyNum :=
  l.foldl (fun x y => if decLt x y then y else x) a

/-- Replace every occurrence of one character (Python `str.replace` with a
single-character needle and replacement). -/
def mapChar (old new : Char) (s : String) : String :=
  String.mk (s.toList.map (fun c => if c = old then new else c))

/-- Delete every occurrence of one character (Python `str.replace(c, '')`). -/
def dropChar (old : Char) (s : String) : String :=
  String.mk (s.toList.filter (fun c => c ≠ old))

/-- Python `str.rfind(c)`: index of the last occurrence, `-1` if absent. -/
def lastIdxOf (s : List Char) (c : Char) : Int :=
  (List.range s.length).foldl
    (fun acc i => if s.get? i = some c then (i : Int) else acc) (-1)

/-! ### Regex building blocks shared by both extractors -/

def reStr (s : String) : RE := (s.toList.map RE.ch).foldr RE.seq RE.eps

def reAlts : List RE → RE
  | [] => .eps
  | [r] => r
  | r :: rest => .alt r (reAlts rest)

/-- Regex `+` (one or more, greedy). -/
def rePlus (r : RE) : RE := .seq r (.star r)

/-- Regex `\d{2}`. -/
def reD2 : RE := RE.seq .digit .digit

/-- Regex `\d{1,3}`, greedy (three digits tried first). -/
def reD13 : RE := RE.seq .digit (.opt (.seq .digit (.opt .digit)))

/-- Regex `(?:[.,]\d{3})`. -/
def reSep3 : RE := RE.seq (.cls ['.', ',']) (.seq .digit (.seq .digit .digit))

/-- Regex `[\s:]`. -/
def clsSpColon : RE := RE.cls (pySpaceChars ++ [':'])

/-- The capture `(\d+[.,]\d{2})` used by ocr_utils.py and test_ocr_logic.py. -/
def grpAmt : RE := RE.grp (.seq (rePlus .digit) (.seq (.cls ['.', ',']) reD2))

/-! ### ocr_utils.extract_amount_from_text (ocr_utils.py:174-202) -/

/-- Pattern `\$\s*(\d+[.,]\d{2})`. -/
def ocrPat1 : RE := RE.seq (.ch '$') (.seq (.star .wsp) grpAmt)

/-- Group `(?:total|amount|total\s*amount|price|due)`. -/
def ocrKw : RE := reAlts [reStr "total", reStr "amount",
  .seq (reStr "total") (.seq (.star .wsp) (reStr "amount")), reStr "price", reStr "due"]

/-- Pattern `(?:total|amount|total\s*amount|price|due)[\s:]*\$?(\d+[.,]\d{2})`. -/
def ocrPat2 : RE := RE.seq ocrKw (.seq (.star clsSpColon) (.seq (.opt (.ch '$')) grpAmt))

/-- Pattern `(\d+[.,]\d{2})\s*(?:usd|eur|gbp|cad)`. -/
def ocrPat3 : RE :=
  RE.seq grpAmt (.seq (.star .wsp)
    (reAlts [reStr "usd", reStr "eur", reStr "gbp", reStr "cad"]))

def amountPatterns : List RE := [ocrPat1, ocrPat2, ocrPat3]

/-- Inner loop of ocr_utils.extract_amount_from_text: first pattern with
matches whose comma-to-dot normalisation parses returns the largest value. -/
def amountLoop (tl : String) : List RE → Option PyNum
  | [] => none
  | p :: rest =>
    let ms := pyFindall p tl
    if ms.isEmpty then amountLoop tl rest
    else
      match ms.filterMap (fun m => pyFloat (mapChar ',' '.' m)) with
      | [] => amountLoop tl rest
      | a :: amts => some (maxListQ a amts)

/-- ocr_utils.py:174-202: lowercase the text, then try the three amount
patterns in order. -/
def extract_amount_from_text (text : String) : Option PyNum :=
  amountLoop (pyLower text) amountPatterns

/-! ### The richer amount extractor of test_ocr_logic.py (lines 7-107)

The repository test suite carries its own copy of the amount logic, with
separator disambiguation and the 0.01 / 1,000,000 sanity bounds the spec
describes.  It is embedded here to document the divergence from the
production function above. -/

namespace TestOcrLogic

/-- test_ocr_logic.py:7-53, `_clean_amount_match`: normalise thousands and
decimal separators, collapse stray dots, parse, and apply the sanity bounds
`0.01 < val < 1000000`. -/
def cleanAmountMatch (m : String) : Option PyNum :=
  let cs := m.toList
  let dots := cs.count '.'
  let commas := cs.count ','
  let clean :=
    if dots > 0 ∧ commas > 0 then
      if lastIdxOf cs ',' > lastIdxOf cs '.' then mapChar ',' '.' (dropChar '.' m)
      else dropChar ',' m
    else if commas > 0 then
      if commas = 1 then
        let commaIdx := lastIdxOf cs ','
        let digitsAfter : Int := (cs.length : Int) - commaIdx - 1
        if digitsAfter = 2 then mapChar ',' '.' m
        else if digitsAfter = 3 then dropChar ',' m
        else dropChar ',' m
      else dropChar ',' m
    else m
  let ccs := clean.toList
  let clean2 :=
    if ccs.count '.' > 1 then
      String.mk (((ccs.take (lastIdxOf ccs '.').toNat).filter (fun c => c ≠ '.')) ++
        ccs.drop (lastIdxOf ccs '.').toNat)
    else clean
  match pyFloat clean2 with
  | some val =>
    if decLt ⟨1, 2⟩ val ∧ decLt val ⟨1000000, 0⟩ then some val else none
  | none => none

/-- Group `(?:total|amount|net|due|egp|le|l\.e)`. -/
def kw1 : RE := reAlts [reStr "total", reStr "amount", reStr "net", reStr "due",
  reStr "egp", reStr "le", reStr "l.e"]

/-- Class `[\$£€]`. -/
def sym : RE := RE.cls ['$', '£', '€']

/-- The capture `(\d{1,3}(?:[.,]\d{3})*[.,]\d{2})`. -/
def grpBig : RE := RE.grp (.seq reD13 (.seq (.star reSep3) (.seq (.cls ['.', ',']) reD2)))

/-- The capture `(\d+(?:[.,]\d{3})*)`. -/
def grpInt : RE := RE.grp (.seq (rePlus .digit) (.star reSep3))

/-- The capture `(\d{1,3}(?:[.,]\d{3})+)`. -/
def grpThous : RE := RE.grp (.seq reD13 (rePlus reSep3))

/-- Group `(?:usd|eur|gbp|cad|egp|le|l\.e)`. -/
def cur1 : RE := reAlts [reStr "usd", reStr "eur", reStr "gbp", reStr "cad",
  reStr "egp", reStr "le", reStr "l.e"]

/-- Group `(?:total|amount|net|due)`. -/
def kw2 : RE := reAlts [reStr "total", reStr "amount", reStr "net", reStr "due"]

def pat0 : RE := RE.seq kw1 (.seq (.star clsSpColon) (.seq (.opt sym) (.seq (.star .wsp) grpBig)))
def pat1 : RE := RE.seq kw1 (.seq (.star clsSpColon) (.seq (.opt sym) (.seq (.star .wsp) grpAmt)))
def pat2 : RE := RE.seq sym (.seq (.star .wsp) grpBig)
def pat3 : RE := RE.seq sym (.seq (.star .wsp) grpAmt)
def pat4 : RE := RE.seq grpBig (.seq (.star .wsp) cur1)
def pat5 : RE := RE.seq grpAmt (.seq (.star .wsp) cur1)
def pat6 : RE := RE.seq kw2 (.seq (.star clsSpColon) (.seq (.opt sym) (.seq (.star .wsp) (.seq grpInt .wb))))
def pat7 : RE := RE.seq .wb (.seq grpBig .wb)
def pat8 : RE := RE.seq .wb (.seq grpThous .wb)
def pat9 : RE := RE.seq .wb (.seq grpAmt .wb)

def patterns : List RE := [pat0, pat1, pat2, pat3, pat4, pat5, pat6, pat7, pat8, pat9]

/-- test_ocr_logic.py:55-107, `extract_amount_from_text`: collect cleaned
matches of all ten patterns; if any keyword/symbol pattern (indices 0-6)
matched, return their maximum; else the first standalone complex number
(index 7) if any; else the maximum of everything found. -/
def extract_amount_from_text (text : String) : Option PyNum :=
  let tl := pyLower text
  let found := patterns.flatMap (fun p => (pyFindall p tl).filterMap cleanAmountMatch)
  if found.isEmpty then none
  else
    let priority := (patterns.take 7).flatMap
      (fun p => (pyFindall p tl).filterMap cleanAmountMatch)
    match priority with
    | a :: rest => some (maxListQ a rest)
    | [] =>
      match (pyFindall pat7 tl).filterMap cleanAmountMatch with
      | v :: _ => some v
      | [] =>
        match found with
        | a :: rest => some (maxListQ a rest)
        | [] => none

end TestOcrLogic

/-! ### Claim C3 -/

/-- C3: the five spec vectors for the amount parser.  The production function
`extract_amount_from_text` of ocr_utils.py satisfies only the two null
vectors (and those only because no pattern matches, not because of any sanity
bound): it returns 1.23 for "Total: $1,234.56" (its regex captures "1,23")
and null for "12,34 EGP" and "Total 500".  The richer extractor that the
repository test suite (test_ocr_logic.py) defines and asserts against - with
separator disambiguation and the 0.01/1,000,000 sanity bounds - returns
exactly the five values the claim states, so the claim describes the tested
intent and the production code diverges from it. -/
theorem c3_amount_vectors :
    (extract_amount_from_text "Total: $1,234.56" = some ⟨123, 2⟩ ∧
      decToRat ⟨123, 2⟩ = 123 / 100 ∧
      extract_amount_from_text "12,34 EGP" = none ∧
      extract_amount_from_text "Total 500" = none ∧
      extract_amount_from_text "0.005" = none ∧
      extract_amount_from_text "2,000,000" = none) ∧
    (TestOcrLogic.extract_amount_from_text "Total: $1,234.56" = some ⟨123456, 2⟩ ∧
      decToRat ⟨123456, 2⟩ = 123456 / 100 ∧
      TestOcrLogic.extract_amount_from_text "12,34 EGP" = some ⟨1234, 2⟩ ∧
      decToRat ⟨1234, 2⟩ = 1234 / 100 ∧
      TestOcrLogic.extract_amount_from_text "Total 500" = some ⟨500, 0⟩ ∧
      decToRat ⟨500, 0⟩ = 500 ∧
      TestOcrLogic.extract_amount_from_text "0.005" = none ∧
      TestOcrLogic.extract_amount_from_text "2,000,000" = none) :=
  ⟨⟨by decide, by norm_num [decToRat], by decide, by decide, by decide, by decide⟩,
    ⟨by decide, by norm_num [decToRat], by decide, by norm_num [decToRat],
      by decide, by norm_num [decToRat], by decide, by decide⟩⟩

/-! ## Part 3: the receipt parsing pipeline (ocr_utils.py:542-609)

`parse_receipt` runs the vision tier, then OCR text extraction, heuristics,
and the text-refinement merge.  The heuristic subroutines
(`extract_merchant_from_text`, `extract_date_from_text`,
`categorize_transaction`) are passed as function parameters: the claims at
hand quantify over their outputs, and the merge law holds regardless of
them. -/

/-- Result of one OCR engine / of `extract_text_from_image`: a raw text or a
raised exception with its message. -/
inductive OcrOutcome where
  | ok (text : String)
  | err (msg : String)
deriving Repr, DecidableEq

/-- ocr_utils.py:143-172, `extract_text_from_image`: EasyOCR when installed,
else/then pytesseract when installed, else/then the online OCR; when the
online fallback also fails the function raises
`"All OCR methods failed: "` plus the online error. -/
def extract_text_from_image (hasEasy hasTess : Bool)
    (easy tess online : OcrOutcome) : OcrOutcome :=
  let step3 :=
    match online with
    | .ok t => OcrOutcome.ok t
    | .err e => OcrOutcome.err ("All OCR methods failed: " ++ e)
  let step2 :=
    if hasTess then
      match tess with
      | .ok t => OcrOutcome.ok t
      | .err _ => step3
    else step3
  if hasEasy then
    match easy with
    | .ok t => OcrOutcome.ok t
    | .err _ => step2
  else step2

/-- The structured fields a model returns, as the code reads them with
`data.get(key)`: `none` stands for an absent or JSON-null field. -/
structure AiData where
  merchant : Option String
  amount : Option ℚ
  date : Option String
  category_id : Option Int
  confidence : Option Nat
  reasoning : Option String
deriving Repr, DecidableEq

/-- Python truthiness of `data.get(key)` for a string field: present,
non-null and non-empty. -/
def truthyS : Option String → Bool
  | none => false
  | some s => !(s = "")

/-- Python truthiness for a float field: present, non-null and non-zero. -/
def truthyQ : Option ℚ → Bool
  | none => false
  | some q => !(q = 0)

/-- Python truthiness for an int field: present, non-null and non-zero. -/
def truthyI : Option Int → Bool
  | none => false
  | some i => !(i = 0)

/-- The record `parse_receipt` returns.  The error path of the source returns
a dict with only `success` and `error` keys; here the other fields are `none`
there. -/
structure ParseResult where
  success : Bool
  extracted_text : Option String
  merchant : Option String
  amount : Option ℚ
  date : Option String
  category_id : Option Int
  confidence : Option Nat
  reasoning : Option String
  error : Option String
deriving Repr, DecidableEq

/-- ocr_utils.py:554-563: the short-circuit result when the vision tier
returned data (`today` is `datetime.now` formatted). -/
def visionResult (today : String) (v : AiData) : ParseResult :=
  { success := true
    extracted_text := some "Processed by Vision AI"
    merchant := some (v.merchant.getD "Unknown")
    amount := some (v.amount.getD 0)
    date := some (v.date.getD today)
    category_id := some (v.category_id.getD 5)
    confidence := some (v.confidence.getD 95)
    reasoning := some (v.reasoning.getD "Vision AI Analysis")
    error := none }

/-- ocr_utils.py:591-601: merge the text-refinement data into the heuristic
result.  Each field is overwritten only when the model value is truthy;
`confidence` and `reasoning` are replaced only inside the `category_id`
branch, as in the source. -/
def mergeAi (r : ParseResult) (d : AiData) : ParseResult :=
  let r1 := if truthyS d.merchant then { r with merchant := d.merchant } else r
  let r2 := if truthyQ d.amount then { r1 with amount := d.amount } else r1
  let r3 := if truthyS d.date then { r2 with date := d.date } else r2
  if truthyI d.category_id then
    { r3 with
      category_id := d.category_id
      confidence := some (d.confidence.getD 90)
      reasoning := some (d.reasoning.getD "AI Analysis of extracted text") }
  else r3

/-- Python `merchant or "Unknown"`. -/
def merchOr : Option String → String
  | some s => if s = "" then "Unknown" else s
  | none => "Unknown"

/-- ocr_utils.py:542-609, `parse_receipt`.  `cats` is the truthiness of
`available_categories`; `vision` is what `parse_receipt_image_with_ai`
returned (when invoked); `ocr` is the `extract_text_from_image` outcome;
`merchantOf`, `amountOf`, `dateOf`, `catOf` are the tier-5 heuristics
(`catOf text merchant amount` giving category id, confidence and reasoning);
`ai` is `parse_receipt_with_ai` on the extracted text. -/
def parse_receipt (cats : Bool) (vision : Option AiData) (ocr : OcrOutcome)
    (merchantOf : String → Option String) (amountOf : String → Option ℚ)
    (dateOf : String → String) (today : String)
    (catOf : String → String → ℚ → Int × Nat × String)
    (ai : String → Option AiData) : ParseResult :=
  match (if cats then vision else none) with
  | some v => visionResult today v
  | none =>
    match ocr with
    | .err e =>
      { success := false, extracted_text := none, merchant := none, amount := none
        date := none, category_id := none, confidence := none, reasoning := none
        error := some e }
    | .ok text =>
      let merchant := merchantOf text
      let amount := amountOf text
      let cat := catOf text (merchOr merchant) (amount.getD 0)
      let base : ParseResult :=
        { success := true
          extracted_text := some text
          merchant := merchant
          amount := amount
          date := some (dateOf text)
          category_id := some cat.1
          confidence := some cat.2.1
          reasoning := some cat.2.2
          error := none }
      if cats then
        match ai text with
        | some d => mergeAi base d
        | none => base
      else base

/-! ### Claim C4 -/

/-- A refinement answer whose amount is the non-null float 0.0 (the model
returned it alongside a merchant, so `parse_receipt_with_ai` does hand it
back). -/
def c4ai : AiData := ⟨some "AI Shop", some 0, none, none, none, none⟩

/-- A non-vision pipeline run whose heuristic amount is 5 and whose
refinement amount is the non-null 0.0. -/
def c4run : ParseResult :=
  parse_receipt true none (.ok "receipt text") (fun _ => some "Heur Shop")
    (fun _ => some 5) (fun _ => "2024-01-01") "2024-01-01"
    (fun _ _ _ => (1, 85, "rule")) (fun _ => some c4ai)

/-- C4 counterexample: the refinement returned the non-null amount 0.0, yet
the final record keeps the heuristic amount 5 - the merge tests Python
truthiness, not nullness, so a non-null zero (or empty-string) refinement
value never overwrites. -/
theorem c4_counterexample :
    c4ai.amount = some 0 ∧ c4ai.amount.isSome = true ∧
    c4run.amount = some 5 ∧ c4run.amount ≠ c4ai.amount := by
  decide

/-- C4 as amended: on the non-vision path, for every field the refinement
returns a truthy value for (non-null and non-zero / non-empty), the final
record carries exactly the refinement value, regardless of what the
heuristics produced. -/
theorem c4_refinement_overwrites (text : String)
    (merchantOf : String → Option String) (amountOf : String → Option ℚ)
    (dateOf : String → String) (today : String)
    (catOf : String → String → ℚ → Int × Nat × String)
    (ai : String → Option AiData) (d : AiData)
    (hai : ai text = some d) :
    (truthyS d.merchant = true →
      (parse_receipt true none (.ok text) merchantOf amountOf dateOf today
        catOf ai).merchant = d.merchant) ∧
    (truthyQ d.amount = true →
      (parse_receipt true none (.ok text) merchantOf amountOf dateOf today
        catOf ai).amount = d.amount) ∧
    (truthyS d.date = true →
      (parse_receipt true none (.ok text) merchantOf amountOf dateOf today
        catOf ai).date = d.date) ∧
    (truthyI d.category_id = true →
      (parse_receipt true none (.ok text) merchantOf amountOf dateOf today
        catOf ai).category_id = d.category_id) := by
  refine ⟨?_, ?_, ?_, ?_⟩ <;> intro h <;>
    simp only [parse_receipt, hai, mergeAi, ite_self] <;>
    split_ifs <;> simp_all

/-- C4 witness: an all-truthy refinement answer overwriting every field. -/
def c4wd : AiData := ⟨some "M", some 7, some "2024-02-02", some 3, some 95, some "r"⟩

theorem c4_witness :
    ((fun _ : String => some c4wd) "t" = some c4wd) ∧
    ((truthyS c4wd.merchant = true →
      (parse_receipt true none (.ok "t") (fun _ => some "H") (fun _ => some 1)
        (fun _ => "2024-01-01") "2024-01-01" (fun _ _ _ => (1, 85, "rule"))
        (fun _ => some c4wd)).merchant = c4wd.merchant) ∧
    (truthyQ c4wd.amount = true →
      (parse_receipt true none (.ok "t") (fun _ => some "H") (fun _ => some 1)
        (fun _ => "2024-01-01") "2024-01-01" (fun _ _ _ => (1, 85, "rule"))
        (fun _ => some c4wd)).amount = c4wd.amount) ∧
    (truthyS c4wd.date = true →
      (parse_receipt true none (.ok "t") (fun _ => some "H") (fun _ => some 1)
        (fun _ => "2024-01-01") "2024-01-01" (fun _ _ _ => (1, 85, "rule"))
        (fun _ => some c4wd)).date = c4wd.date) ∧
    (truthyI c4wd.category_id = true →
      (parse_receipt true none (.ok "t") (fun _ => some "H") (fun _ => some 1)
        (fun _ => "2024-01-01") "2024-01-01" (fun _ _ _ => (1, 85, "rule"))
        (fun _ => some c4wd)).category_id = c4wd.category_id)) :=
  ⟨rfl,
    c4_refinement_overwrites "t" (fun _ => some "H") (fun _ => some 1)
      (fun _ => "2024-01-01") "2024-01-01" (fun _ _ _ => (1, 85, "rule"))
      (fun _ => some c4wd) c4wd rfl⟩

/-! ### Claim C7 -/

/-- A non-vision pipeline run in which all three OCR tiers raise. -/
def c7run : ParseResult :=
  parse_receipt true none
    (extract_text_from_image true true (.err "easy down") (.err "tess down")
      (.err "net down"))
    (fun _ => some "M") (fun _ => none) (fun _ => "2024-01-01") "2024-01-01"
    (fun _ _ _ => (5, 85, "r")) (fun _ => none)

/-- C7 counterexample: when every text-extraction tier fails, `parse_receipt`
does not proceed with heuristic extraction over the empty string - it catches
the raised OCR exception and returns an error record (`success = False`, no
extracted text, no fields), refuting the claimed empty-string degradation. -/
theorem c7_counterexample :
    c7run.success = false ∧ c7run.extracted_text = none ∧
    c7run.merchant = none ∧ c7run.amount = none ∧
    c7run.error = some "All OCR methods failed: net down" := by
  decide

/-- C7 as amended: the pipeline never raises - for every combination of OCR
engine availability and failures, when all tiers fail it returns the error
record carrying the online-tier message, with every extraction field null,
instead of propagating the exception (and instead of the spec-claimed
empty-string heuristic pass). -/
theorem c7_total_ocr_failure (cats : Bool) (hasEasy hasTess : Bool)
    (e1 e2 e3 : String)
    (merchantOf : String → Option String) (amountOf : String → Option ℚ)
    (dateOf : String → String) (today : String)
    (catOf : String → String → ℚ → Int × Nat × String)
    (ai : String → Option AiData) :
    parse_receipt cats none
      (extract_text_from_image hasEasy hasTess (.err e1) (.err e2) (.err e3))
      merchantOf amountOf dateOf today catOf ai =
    { success := false, extracted_text := none, merchant := none, amount := none
      date := none, category_id := none, confidence := none, reasoning := none
      error := some ("All OCR methods failed: " ++ e3) } := by
  cases hasEasy <;> cases hasTess <;>
    simp [extract_text_from_image, parse_receipt, ite_self]

/-! ## Part 4: the rate cache manager (main.py:2205-2404)

`fetch_real_time_rates` is embedded as a pure function of a state that
carries the latest cached row, the clock, the flags and the outcome of each
rate source.  Timestamps are rationals (seconds); money values are rationals.
Each rate source is a sum type covering a raised request (caught by its inner
handler), a non-200 status, and a parsed body; the construction of the outer
HTTP client and the cache write are the two operations inside the outer `try`
whose failure reaches the outer `except` handler. -/

/-- One `MarketRatesCache` row (models.py:174-196): the first five value
columns are non-nullable, the rest nullable. -/
structure CachedRecord where
  updatedAt : ℚ
  gold : ℚ
  silver : ℚ
  usd : ℚ
  gbp : ℚ
  eur : ℚ
  sar : Option ℚ
  aed : Option ℚ
  kwd : Option ℚ
  qar : Option ℚ
  bhd : Option ℚ
  omr : Option ℚ
  jod : Option ℚ
  tryRate : Option ℚ
  cad : Option ℚ
  aud : Option ℚ
deriving Repr, DecidableEq

/-- The `rates_data` dict during a refresh (`tryRate` stands for the "try"
key, a reserved word here). -/
structure Rd where
  gold : ℚ
  silver : ℚ
  usd : ℚ
  eur : ℚ
  gbp : ℚ
  sar : ℚ
  aed : ℚ
  kwd : ℚ
  qar : ℚ
  bhd : ℚ
  omr : ℚ
  jod : ℚ
  tryRate : ℚ
  cad : ℚ
  aud : ℚ
  egp : ℚ
deriving Repr, DecidableEq

/-- main.py:2261-2269: the hardcoded default fallback rates. -/
def defaultRates : Rd :=
  { gold := 758972 / 100, silver := 11646 / 100
    usd := 489 / 10, eur := 528 / 10, gbp := 621 / 10
    sar := 13, aed := 133 / 10, kwd := 158
    qar := 134 / 10, bhd := 129, omr := 127
    jod := 69, tryRate := 16 / 10, cad := 36, aud := 32
    egp := 1 }

/-- Python `x or default` on a nullable float column. -/
def pyOr (v : Option ℚ) (d : ℚ) : ℚ :=
  match v with
  | none => d
  | some x => if x = 0 then d else x

/-- main.py:2271-2289: overlay the cached row on the defaults; the five
non-nullable columns are taken as-is, the nullable ones through `or`. -/
def applyCachedFallback (rd : Rd) (c : CachedRecord) : Rd :=
  { rd with
    gold := c.gold, silver := c.silver, usd := c.usd, gbp := c.gbp, eur := c.eur
    sar := pyOr c.sar rd.sar, aed := pyOr c.aed rd.aed, kwd := pyOr c.kwd rd.kwd
    qar := pyOr c.qar rd.qar, bhd := pyOr c.bhd rd.bhd, omr := pyOr c.omr rd.omr
    jod := pyOr c.jod rd.jod, tryRate := pyOr c.tryRate rd.tryRate
    cad := pyOr c.cad rd.cad, aud := pyOr c.aud rd.aud }

def fallbackRd : Option CachedRecord → Rd
  | some c => applyCachedFallback defaultRates c
  | none => defaultRates

/-- Troy ounce in grams, 31.1035. -/
def ozToGram : ℚ := 311035 / 10000

/-- Python `round(x, 2)` (half-up here; the tie direction of Python float
rounding never matters to the claims, which do not evaluate rounded source
values). -/
def round2 (q : ℚ) : ℚ := ((q * 100 + 1 / 2).floor : ℚ) / 100

/-- Coinbase spot outcome (main.py:2294-2306): a raised request, or a status
with `data.amount` when both keys are present. -/
inductive GoldSrc where
  | fail (msg : String)
  | http (status : Nat) (amount : Option ℚ)
deriving Repr, DecidableEq

def applyGold (s : GoldSrc) (rd : Rd) : Rd :=
  match s with
  | .fail _ => rd
  | .http status amount =>
    if status = 200 then
      match amount with
      | some a => { rd with gold := round2 (a / ozToGram) }
      | none => rd
    else rd

/-- GoldPrice outcome (main.py:2309-2328): a raised request, or a status with
`items[0]` carrying optional `xauPrice` and `xagPrice` when the list is
non-empty. -/
inductive GpSrc where
  | fail (msg : String)
  | http (status : Nat) (item : Option (Option ℚ × Option ℚ))
deriving Repr, DecidableEq

/-- main.py:2314-2324: gold is taken only while still at the hardcoded
default (7589.72); silver unconditionally. -/
def applyGp (s : GpSrc) (rd : Rd) : Rd :=
  match s with
  | .fail _ => rd
  | .http status item =>
    if status = 200 then
      match item with
      | some (xau, xag) =>
        let rd1 :=
          match xau with
          | some p =>
            if rd.gold = 758972 / 100 then { rd with gold := round2 (p / ozToGram) }
            else rd
          | none => rd
        match xag with
        | some p => { rd1 with silver := round2 (p / ozToGram) }
        | none => rd1
      | none => rd
    else rd

/-- ExchangeRate-API outcome (main.py:2332-2343): a raised request, or a
status with the `result == "success"` flag and the `conversion_rates` table
(a partial map from currency code to quote). -/
inductive CurSrc where
  | fail (msg : String)
  | http (status : Nat) (resultSuccess : Bool) (conv : Option (String → Option ℚ))

/-- main.py:2339-2341: `if conv.get(curr): rates[curr.lower()] = round(1 / conv[curr], 2)` -
the guard is Python truthiness, so a missing or zero quote leaves the entry
alone. -/
def applyCurOne (cv : String → Option ℚ) (key : String) (cur : ℚ) : ℚ :=
  match cv key with
  | some v => if v = 0 then cur else round2 (1 / v)
  | none => cur

def applyCur (s : CurSrc) (rd : Rd) : Rd :=
  match s with
  | .fail _ => rd
  | .http status ok conv =>
    if status = 200 then
      match conv with
      | some cv =>
        if ok then
          { rd with
            usd := applyCurOne cv "USD" rd.usd, eur := applyCurOne cv "EUR" rd.eur
            gbp := applyCurOne cv "GBP" rd.gbp, sar := applyCurOne cv "SAR" rd.sar
            aed := applyCurOne cv "AED" rd.aed, kwd := applyCurOne cv "KWD" rd.kwd
            qar := applyCurOne cv "QAR" rd.qar, bhd := applyCurOne cv "BHD" rd.bhd
            omr := applyCurOne cv "OMR" rd.omr, jod := applyCurOne cv "JOD" rd.jod
            tryRate := applyCurOne cv "TRY" rd.tryRate
            cad := applyCurOne cv "CAD" rd.cad, aud := applyCurOne cv "AUD" rd.aud }
        else rd
      | none => rd
    else rd

/-- Metals-API outcome (main.py:2348-2370): a raised request, or a status
with the `success` flag and the optional `rates` table (XAU, XAG). -/
inductive MetalsSrc where
  | fail (msg : String)
  | http (status : Nat) (success : Bool) (rates : Option (Option ℚ × Option ℚ))
deriving Repr, DecidableEq

def applyMetals (s : MetalsSrc) (rd : Rd) : Rd :=
  match s with
  | .fail _ => rd
  | .http status succ rts =>
    if status = 200 then
      if succ then
        match rts with
        | some (xau, xag) =>
          let rd1 :=
            match xau with
            | some r => if 0 < r then { rd with gold := round2 ((1 / r) / ozToGram) } else rd
            | none => rd
          match xag with
          | some r => if 0 < r then { rd1 with silver := round2 ((1 / r) / ozToGram) } else rd1
          | none => rd1
        | none => rd
      else rd
    else rd

/-- The state `fetch_real_time_rates` runs against: the latest cached row,
the clock (`now_utc`, seconds), the `force_refresh` argument, whether the
outer client construction and the cache write succeed (`errMsg` being the
exception text when one of them raises), the two API-key flags, and the four
source outcomes. -/
structure RatesState where
  cached : Option CachedRecord
  now : ℚ
  force : Bool
  clientOk : Bool
  persistOk : Bool
  errMsg : String
  exKey : Bool
  metKey : Bool
  goldSrc : GoldSrc
  gpSrc : GpSrc
  curSrc : CurSrc
  metSrc : MetalsSrc

/-- The JSON record the endpoint returns: the fifteen quoted values plus the
base `egp`, `last_updated` (a timestamp), `is_cached`, and the `error` key
(present only on the except path). -/
structure RatesOut where
  gold : ℚ
  silver : ℚ
  usd : ℚ
  gbp : ℚ
  eur : ℚ
  egp : ℚ
  sar : Option ℚ
  aed : Option ℚ
  kwd : Option ℚ
  qar : Option ℚ
  bhd : Option ℚ
  omr : Option ℚ
  jod : Option ℚ
  tryRate : Option ℚ
  cad : Option ℚ
  aud : Option ℚ
  lastUpdated : ℚ
  isCached : Bool
  errorMsg : Option String
deriving Repr, DecidableEq

/-- main.py:2237-2257: the cache-hit return, all values straight from the
row, `egp` the literal 1.0, `is_cached` true. -/
def cacheHit (c : CachedRecord) : RatesOut :=
  { gold := c.gold, silver := c.silver, usd := c.usd, gbp := c.gbp, eur := c.eur
    egp := 1
    sar := c.sar, aed := c.aed, kwd := c.kwd, qar := c.qar, bhd := c.bhd
    omr := c.omr, jod := c.jod, tryRate := c.tryRate, cad := c.cad, aud := c.aud
    lastUpdated := c.updatedAt, isCached := true, errorMsg := none }

/-- A `rates_data` dict spread into a response record. -/
def rdOut (rd : Rd) (lastUpdated : ℚ) (isCached : Bool) (err : Option String) :
    RatesOut :=
  { gold := rd.gold, silver := rd.silver, usd := rd.usd, gbp := rd.gbp, eur := rd.eur
    egp := rd.egp
    sar := some rd.sar, aed := some rd.aed, kwd := some rd.kwd, qar := some rd.qar
    bhd := some rd.bhd, omr := some rd.omr, jod := some rd.jod
    tryRate := some rd.tryRate, cad := some rd.cad, aud := some rd.aud
    lastUpdated := lastUpdated, isCached := isCached, errorMsg := err }

/-- main.py:2401: `last_updated` on the except path - the cached row's
timestamp when one exists, else `now_utc`. -/
def exceptLastUpdated (st : RatesState) : ℚ :=
  match st.cached with
  | some c => c.updatedAt
  | none => st.now

/-- main.py:2227-2235: refresh iff `force_refresh`, or a cached row exists
whose age exceeds (strictly) the 600-second window. -/
def shouldRefreshCalc (st : RatesState) : Bool :=
  st.force ||
    (match st.cached with
     | some c => decide (st.now - c.updatedAt > 600)
     | none => false)

/-- main.py:2331: the currency API is consulted only when its key is set. -/
def curStep (st : RatesState) (rd : Rd) : Rd :=
  if st.exKey then applyCur st.curSrc rd else rd

/-- main.py:2347: the Metals-API fallback runs only when its key is set and
gold or silver still sits at its hardcoded default value. -/
def metalsStep (st : RatesState) (rd : Rd) : Rd :=
  if st.metKey ∧ (rd.gold = 758972 / 100 ∨ rd.silver = 11646 / 100) then
    applyMetals st.metSrc rd
  else rd

/-- The successive `rates_data` mutations of a refresh (main.py:2291-2370):
Coinbase gold, GoldPrice, the currency API (key permitting), and the
Metals-API fallback. -/
def refreshRd (st : RatesState) : Rd :=
  metalsStep st (curStep st (applyGp st.gpSrc (applyGold st.goldSrc (fallbackRd st.cached))))

/-- The refresh branch of `fetch_real_time_rates` with its `try`/`except`
shape: a failed client construction skips the sources and returns the
fallback values annotated cached; a failed cache write returns the refreshed
values annotated cached; otherwise the refreshed values are persisted and
returned with `is_cached` false. -/
def refreshPath (st : RatesState) : RatesOut :=
  if st.clientOk then
    if st.persistOk then rdOut (refreshRd st) st.now false none
    else rdOut (refreshRd st) (exceptLastUpdated st) true (some st.errMsg)
  else rdOut (fallbackRd st.cached) (exceptLastUpdated st) true (some st.errMsg)

/-- main.py:2214-2404, `fetch_real_time_rates`. -/
def fetch_real_time_rates (st : RatesState) : RatesOut :=
  match st.cached with
  | some c => if shouldRefreshCalc st then refreshPath st else cacheHit c
  | none => refreshPath st

/-! ### Source-failure predicates and no-effect lemmas -/

/-- The Coinbase call delivered nothing: raised, non-200, or no
`data.amount`. -/
def goldFailed : GoldSrc → Bool
  | .fail _ => true
  | .http status amount => !(status = 200 && amount.isSome)

/-- The GoldPrice call delivered nothing: raised, non-200, or empty
`items`. -/
def gpFailed : GpSrc → Bool
  | .fail _ => true
  | .http status item => !(status = 200 && item.isSome)

/-- The currency call delivered nothing: raised, non-200, result not
"success", or no `conversion_rates`. -/
def curFailed : CurSrc → Bool
  | .fail _ => true
  | .http status ok conv => !(status = 200 && ok && conv.isSome)

/-- The Metals-API call delivered nothing: raised, non-200, `success` falsy,
or no `rates`. -/
def metFailed : MetalsSrc → Bool
  | .fail _ => true
  | .http status succ rts => !(status = 200 && succ && rts.isSome)

/-- Every rate source the refresh would consult delivers nothing. -/
def sourcesNoEffect (st : RatesState) : Bool :=
  goldFailed st.goldSrc && gpFailed st.gpSrc &&
    (!st.exKey || curFailed st.curSrc) && (!st.metKey || metFailed st.metSrc)

theorem applyGold_noEffect (s : GoldSrc) (rd : Rd) (h : goldFailed s = true) :
    applyGold s rd = rd := by
  cases s with
  | fail m => rfl
  | http status amount =>
    cases amount with
    | none => simp [applyGold]
    | some a => simp [goldFailed] at h; simp [applyGold, h]

theorem applyGp_noEffect (s : GpSrc) (rd : Rd) (h : gpFailed s = true) :
    applyGp s rd = rd := by
  cases s with
  | fail m => rfl
  | http status item =>
    cases item with
    | none => simp [applyGp]
    | some p => simp [gpFailed] at h; simp [applyGp, h]

theorem applyCur_noEffect (s : CurSrc) (rd : Rd) (h : curFailed s = true) :
    applyCur s rd = rd := by
  cases s with
  | fail m => rfl
  | http status ok conv =>
    cases conv with
    | none => by_cases h200 : status = 200 <;> simp [applyCur, h200]
    | some cv =>
      simp [curFailed] at h
      by_cases h200 : status = 200
      · rcases h with h | h
        · exact absurd h200 h
        · simp [applyCur, h200, h]
      · simp [applyCur, h200]

theorem applyMetals_noEffect (s : MetalsSrc) (rd : Rd) (h : metFailed s = true) :
    applyMetals s rd = rd := by
  cases s with
  | fail m => rfl
  | http status succ rts =>
    cases rts with
    | none => by_cases h200 : status = 200 <;> cases succ <;> simp [applyMetals, h200]
    | some p =>
      simp [metFailed] at h
      by_cases h200 : status = 200
      · rcases h with h | h
        · exact absurd h200 h
        · simp [applyMetals, h200, h]
      · simp [applyMetals, h200]

/-- When every source delivers nothing, the refresh leaves the fallback
values (prior snapshot overlaid on the defaults) untouched. -/
theorem curStep_noEffect (st : RatesState) (rd : Rd)
    (h : st.exKey = false ∨ curFailed st.curSrc = true) :
    curStep st rd = rd := by
  rcases h with h | h
  · simp [curStep, h]
  · unfold curStep
    split
    · exact applyCur_noEffect _ _ h
    · rfl

theorem metalsStep_noEffect (st : RatesState) (rd : Rd)
    (h : st.metKey = false ∨ metFailed st.metSrc = true) :
    metalsStep st rd = rd := by
  rcases h with h | h
  · simp [metalsStep, h]
  · unfold metalsStep
    split
    · exact applyMetals_noEffect _ _ h
    · rfl

/-- When every source delivers nothing, the refresh leaves the fallback
values (prior snapshot overlaid on the defaults) untouched. -/
theorem refreshRd_noEffect (st : RatesState) (h : sourcesNoEffect st = true) :
    refreshRd st = fallbackRd st.cached := by
  simp only [sourcesNoEffect, Bool.and_eq_true, Bool.or_eq_true, Bool.not_eq_true'] at h
  obtain ⟨⟨⟨h1, h2⟩, h3⟩, h4⟩ := h
  unfold refreshRd
  rw [applyGold_noEffect _ _ h1, applyGp_noEffect _ _ h2,
    curStep_noEffect st _ h3, metalsStep_noEffect st _ h4]

/-! ### The base currency is never touched -/

theorem applyGold_egp (s : GoldSrc) (rd : Rd) : (applyGold s rd).egp = rd.egp := by
  unfold applyGold
  cases s with
  | fail m => rfl
  | http status amount =>
    dsimp only
    repeat' split
    all_goals rfl

theorem applyGp_egp (s : GpSrc) (rd : Rd) : (applyGp s rd).egp = rd.egp := by
  unfold applyGp
  cases s with
  | fail m => rfl
  | http status item =>
    dsimp only
    repeat' split
    all_goals rfl

theorem applyCur_egp (s : CurSrc) (rd : Rd) : (applyCur s rd).egp = rd.egp := by
  unfold applyCur
  cases s with
  | fail m => rfl
  | http status ok conv =>
    dsimp only
    repeat' split
    all_goals rfl

theorem applyMetals_egp (s : MetalsSrc) (rd : Rd) : (applyMetals s rd).egp = rd.egp := by
  unfold applyMetals
  cases s with
  | fail m => rfl
  | http status succ rts =>
    dsimp only
    repeat' split
    all_goals rfl

theorem curStep_egp (st : RatesState) (rd : Rd) : (curStep st rd).egp = rd.egp := by
  unfold curStep
  split
  · exact applyCur_egp _ _
  · rfl

theorem metalsStep_egp (st : RatesState) (rd : Rd) : (metalsStep st rd).egp = rd.egp := by
  unfold metalsStep
  split
  · exact applyMetals_egp _ _
  · rfl

/-! ### Claim C10 -/

/-- C10: on every execution path of the rate lookup - cache hit, full or
partial refresh, total source failure, failed client construction or failed
cache write - the returned record carries `egp = 1.0`: the cache-hit return
writes the literal, the defaults start at 1.0, and no source update ever
assigns the `egp` key. -/
theorem c10_egp_identity (st : RatesState) :
    (fetch_real_time_rates st).egp = 1 := by
  have hfb : (fallbackRd st.cached).egp = 1 := by
    cases st.cached with
    | none => rfl
    | some c => rfl
  have hrd : (refreshRd st).egp = 1 := by
    unfold refreshRd
    rw [metalsStep_egp, curStep_egp, applyGp_egp, applyGold_egp, hfb]
  have hrp : (refreshPath st).egp = 1 := by
    unfold refreshPath
    split_ifs <;> simp [rdOut, hrd, hfb]
  unfold fetch_real_time_rates
  cases st.cached with
  | none => exact hrp
  | some c =>
    dsimp only
    split
    · exact hrp
    · rfl

/-! ### Claim C5 -/

/-- A cached row captured at second 0. -/
def c5rec : CachedRecord :=
  { updatedAt := 0, gold := 7000, silver := 100, usd := 49, gbp := 62, eur := 53
    sar := none, aed := none, kwd := none, qar := none, bhd := none
    omr := none, jod := none, tryRate := none, cad := none, aud := none }

/-- A query arriving exactly at the end of the 600-second window, with
`force_refresh` false. -/
def c5st : RatesState :=
  { cached := some c5rec, now := 600, force := false
    clientOk := true, persistOk := true, errMsg := ""
    exKey := false, metKey := false
    goldSrc := .fail "down", gpSrc := .fail "down"
    curSrc := .fail "down", metSrc := .fail "down" }

/-- C5 counterexample: at the exact boundary `now = captured_at + 600` with
`force_refresh` false, the age test `cache_age_seconds > 600` is false, so no
refresh is attempted and the snapshot is served from cache - the claim
demanded a refresh at the boundary. -/
theorem c5_counterexample :
    c5st.now - c5rec.updatedAt = 600 ∧ c5st.force = false ∧
    shouldRefreshCalc c5st = false ∧
    fetch_real_time_rates c5st = cacheHit c5rec := by
  have hs : shouldRefreshCalc c5st = false := by
    norm_num [shouldRefreshCalc, c5st, c5rec]
  have hc : c5st.cached = some c5rec := rfl
  refine ⟨by norm_num [c5st, c5rec], rfl, hs, ?_⟩
  simp only [fetch_real_time_rates, hc, hs]
  simp

/-- C5 as amended: with a cached snapshot present, a refresh is attempted
exactly when `force_refresh` is true or the snapshot age strictly exceeds the
600-second window; otherwise (boundary included) the snapshot is served
unchanged from cache. -/
theorem c5_freshness (st : RatesState) (c : CachedRecord)
    (hc : st.cached = some c) :
    shouldRefreshCalc st = (st.force || decide (st.now - c.updatedAt > 600)) ∧
    (shouldRefreshCalc st = false → fetch_real_time_rates st = cacheHit c) ∧
    (shouldRefreshCalc st = true → fetch_real_time_rates st = refreshPath st) := by
  refine ⟨by simp [shouldRefreshCalc, hc], ?_, ?_⟩ <;>
    intro h <;> simp [fetch_real_time_rates, hc, h]

/-- C5 witness: the amended statement at the boundary state. -/
theorem c5_witness :
    c5st.cached = some c5rec ∧
    (shouldRefreshCalc c5st = (c5st.force || decide (c5st.now - c5rec.updatedAt > 600)) ∧
      (shouldRefreshCalc c5st = false → fetch_real_time_rates c5st = cacheHit c5rec) ∧
      (shouldRefreshCalc c5st = true → fetch_real_time_rates c5st = refreshPath c5st)) :=
  ⟨rfl, c5_freshness c5st c5rec rfl⟩

/-! ### Claim C6 -/

/-- A cached row captured at second 100. -/
def c6rec : CachedRecord :=
  { updatedAt := 100, gold := 7000, silver := 100, usd := 49, gbp := 62, eur := 53
    sar := some 13, aed := none, kwd := none, qar := none, bhd := none
    omr := none, jod := none, tryRate := none, cad := none, aud := none }

/-- A forced refresh during which every rate source fails - the Coinbase
request raises, GoldPrice answers 403, the currency API answers 200 without a
parseable success body, the Metals-API request raises - while the client
construction and the cache write both succeed. -/
def c6st : RatesState :=
  { cached := some c6rec, now := 10000, force := true
    clientOk := true, persistOk := true, errMsg := "boom"
    exKey := true, metKey := true
    goldSrc := .fail "gold down", gpSrc := .http 403 none
    curSrc := .http 200 false none, metSrc := .fail "metals down" }

/-- C6 counterexample: with a prior snapshot present and every rate source
failing, the refresh completes, returns the prior snapshot's values - and
annotates the result `is_cached = False` with no error key, i.e. NOT as a
cached/degraded result, refuting the claimed annotation. -/
theorem c6_counterexample :
    sourcesNoEffect c6st = true ∧
    (fetch_real_time_rates c6st).gold = c6rec.gold ∧
    (fetch_real_time_rates c6st).usd = c6rec.usd ∧
    (fetch_real_time_rates c6st).isCached = false ∧
    (fetch_real_time_rates c6st).errorMsg = none := by
  have hs : shouldRefreshCalc c6st = true := rfl
  have hr : refreshRd c6st = fallbackRd c6st.cached := refreshRd_noEffect c6st (by decide)
  have hc : c6st.cached = some c6rec := rfl
  have hclient : c6st.clientOk = true := rfl
  have hpersist : c6st.persistOk = true := rfl
  have hfetch : fetch_real_time_rates c6st =
      rdOut (fallbackRd c6st.cached) c6st.now false none := by
    simp only [fetch_real_time_rates, hc, hs, if_true]
    unfold refreshPath
    rw [hr]
    simp [hclient, hpersist]
    rw [hc]
  refine ⟨by decide, ?_, ?_, ?_, ?_⟩ <;> rw [hfetch] <;>
    norm_num [rdOut, fallbackRd, applyCachedFallback, c6st, c6rec, defaultRates, pyOr]

/-- C6 as amended: for every input state in which all consulted rate sources
fail, the lookup still returns a full record (the embedding is total - the
outer except-handler absorbs the two operations that can raise) whose quoted
values are the prior snapshot's where one exists and the hardcoded defaults
otherwise; it is annotated `is_cached = True` with an error message exactly
when the refresh raised (client construction or cache write), and - contrary
to the claim - `is_cached = False` when every source failed but nothing
raised. -/
theorem c6_all_sources_fail (st : RatesState)
    (hfail : sourcesNoEffect st = true)
    (hrefresh : shouldRefreshCalc st = true ∨ st.cached = none) :
    fetch_real_time_rates st =
      (if st.clientOk then
        if st.persistOk then rdOut (fallbackRd st.cached) st.now false none
        else rdOut (fallbackRd st.cached) (exceptLastUpdated st) true (some st.errMsg)
       else rdOut (fallbackRd st.cached) (exceptLastUpdated st) true (some st.errMsg)) := by
  have hr : refreshPath st =
      (if st.clientOk then
        if st.persistOk then rdOut (fallbackRd st.cached) st.now false none
        else rdOut (fallbackRd st.cached) (exceptLastUpdated st) true (some st.errMsg)
       else rdOut (fallbackRd st.cached) (exceptLastUpdated st) true (some st.errMsg)) := by
    unfold refreshPath
    rw [refreshRd_noEffect st hfail]
  rw [← hr]
  unfold fetch_real_time_rates
  rcases hrefresh with h | h
  · cases hc : st.cached with
    | none => rfl
    | some c => simp [h]
  · rw [h]

/-- C6 witness: the amended statement at the all-sources-fail state. -/
theorem c6_witness :
    sourcesNoEffect c6st = true ∧
    (shouldRefreshCalc c6st = true ∨ c6st.cached = none) ∧
    fetch_real_time_rates c6st =
      (if c6st.clientOk then
        if c6st.persistOk then rdOut (fallbackRd c6st.cached) c6st.now false none
        else rdOut (fallbackRd c6st.cached) (exceptLastUpdated c6st) true (some c6st.errMsg)
       else rdOut (fallbackRd c6st.cached) (exceptLastUpdated c6st) true (some c6st.errMsg)) :=
  ⟨by decide, Or.inl rfl, c6_all_sources_fail c6st (by decide) (Or.inl rfl)⟩
